import Mathlib

/-!
Verification of the lab-forge orchestration core.

The definitions below are a shallow embedding of the Python sources of the
repository (`src/labforge/network.py`, `compose.py`, `config.py`,
`lab_state.py`, `controller.py`).  IPv4 addresses are natural numbers below
2^32; the filesystem-backed lab-state store is modelled as an association
list from lab ids to lab directory entries; the external container runtime
(docker compose) is modelled by an `Except`-valued oracle passed to the
controller functions that invoke it.
-/

namespace LabForge

/-- An IPv4 network, identified (as in Python's `ipaddress.IPv4Network`
equality) by its network address and its prefix length. -/
structure IPv4Network where
  addr : Nat
  prefixLen : Nat
deriving DecidableEq, Repr

/-- Errors raised by `network.py` (`NetworkError`). -/
inductive NetworkErr
| noSubnetAvailable
| offsetOutOfRange (offset : Nat) (subnet : IPv4Network)
deriving DecidableEq, Repr

/-- `BASE_NETWORK = ipaddress.IPv4Network("172.30.0.0/16")`. -/
def BASE_NETWORK : IPv4Network := ⟨172 * 2 ^ 24 + 30 * 2 ^ 16, 16⟩

/-- The `i`-th `/24` subdivision of the base `/16` network, in ascending
address order (as produced by `BASE_NETWORK.subnets(new_prefix=24)`). -/
def blockOf (i : Nat) : IPv4Network := ⟨BASE_NETWORK.addr + 256 * i, 24⟩

/-- `BASE_NETWORK.subnets(new_prefix=SUBNET_PREFIX)`: the 256 `/24`
subdivisions of `172.30.0.0/16` in ascending address order. -/
def subnets24 : List IPv4Network := (List.range 256).map blockOf

/-- `NetworkAllocator.allocate`: iterate the `/24` subdivisions in ascending
order, skip the one whose network address equals the base network address,
skip the ones in `used`, and return the first remaining one; raise
`NetworkError` if none remains. -/
def allocate (used : List IPv4Network) : Except NetworkErr IPv4Network :=
  match subnets24.find? (fun sn => !(sn.addr == BASE_NETWORK.addr) && !(used.contains sn)) with
  | some sn => .ok sn
  | none => .error .noSubnetAvailable

/-- Python's `ip in net` for an address and an `IPv4Network`: the address
lies between the network address and the broadcast address. -/
def memNet (ip : Nat) (net : IPv4Network) : Bool :=
  net.addr ≤ ip && ip ≤ net.addr + (2 ^ (32 - net.prefixLen) - 1)

/-- `NetworkAllocator.compute_ip`: network address plus offset, guarded by
membership in the subnet. -/
def compute_ip (net : IPv4Network) (offset : Nat) : Except NetworkErr Nat :=
  let ip := net.addr + offset
  if memNet ip net then .ok ip else .error (.offsetOutOfRange offset net)

/-- `NetworkAllocator.gateway_ip`: network address plus one. -/
def gateway_ip (net : IPv4Network) : Nat := net.addr + 1

/-- Split a character list at every occurrence of the separator, like
Python's `str.split` with an explicit separator. -/
def splitChar (c : Char) : List Char → List (List Char)
  | [] => [[]]
  | x :: xs =>
    if x = c then [] :: splitChar c xs
    else
      match splitChar c xs with
      | r :: rs => (x :: r) :: rs
      | [] => [[x]]

/-- One dotted-quad octet as parsed by `ipaddress`: decimal digits, at most
three, no leading zero, value at most 255. -/
def parseOctet (cs : List Char) : Option Nat :=
  if cs ≠ [] ∧ cs.length ≤ 3 ∧ cs.all Char.isDigit ∧ (cs.length = 1 ∨ cs.head? ≠ some '0') then
    let v := cs.foldl (fun a c => a * 10 + (c.toNat - '0'.toNat)) 0
    if v ≤ 255 then some v else none
  else none

/-- A dotted-quad IPv4 address as parsed by `ipaddress`. -/
def parseIPv4 (cs : List Char) : Option Nat :=
  match (splitChar '.' cs).mapM parseOctet with
  | some [a, b, c, d] => some (a * 2 ^ 24 + b * 2 ^ 16 + c * 2 ^ 8 + d)
  | _ => none

/-- A prefix length string as parsed by `ipaddress`: decimal digits with
value at most 32. -/
def parsePrefixLen (cs : List Char) : Option Nat :=
  if cs ≠ [] ∧ cs.all Char.isDigit then
    let v := cs.foldl (fun a c => a * 10 + (c.toNat - '0'.toNat)) 0
    if v ≤ 32 then some v else none
  else none

/-- `ipaddress.IPv4Network(s)` with the default strict netmask check: a
dotted quad, optionally followed by `/` and a prefix length (default 32),
whose host bits are all zero. -/
def parseCIDR (s : String) : Option IPv4Network :=
  match splitChar '/' s.toList with
  | [a] => (parseIPv4 a).map (fun ip => ⟨ip, 32⟩)
  | [a, p] =>
    match parseIPv4 a, parsePrefixLen p with
    | some ip, some pr => if ip % 2 ^ (32 - pr) = 0 then some ⟨ip, pr⟩ else none
    | _, _ => none
  | _ => none

/-- `NetworkAllocator.__init__`: parse each entry of `used_subnets`, silently
discarding (`except ValueError: pass`) every entry that does not parse. -/
def initUsed (used_subnets : List String) : List IPv4Network :=
  used_subnets.filterMap parseCIDR

/-- `str(subnet)` for an `IPv4Network`: dotted quad of the network address
followed by the prefix length. -/
def strOfNet (n : IPv4Network) : String :=
  toString (n.addr / 2 ^ 24 % 256) ++ "." ++ toString (n.addr / 2 ^ 16 % 256) ++ "." ++
    toString (n.addr / 2 ^ 8 % 256) ++ "." ++ toString (n.addr % 256) ++ "/" ++
    toString n.prefixLen

/- ### compose.py -/

/-- A `resources {memory, cpus}` block of a service; `cpus` is kept as the
string `str(res["cpus"])` produces. -/
structure Resources where
  memory : Option String := none
  cpus : Option String := none
deriving DecidableEq, Repr

/-- A service entry of a lab template (`ServiceSpec` in the spec): the dict
fields of one element of `config["services"]`.  `Option` models presence of
the optional keys; payload values that the generator passes through verbatim
are kept at representative types. -/
structure ServiceSpec where
  name : String
  image : String
  ip_offset : Nat
  hostname : Option String := none
  platform : Option String := none
  resources : Option Resources := none
  ports : Option (List String) := none
  environment : Option (List (String × String)) := none
  volumes : Option (List String) := none
  healthcheck : Option String := none
  depends_on : Option (List String) := none
  command : Option String := none
  restart : Option String := none
  privileged : Option Bool := none
  cap_add : Option (List String) := none
  network_mode : Option String := none
  access : Option (List String) := none
  post_start : List String := []
deriving DecidableEq, Repr

/-- One generated docker-compose service definition (the dict built by
`ComposeGenerator._build_service`).  `networks` holds the single per-lab
network attachment `(network_name, ipv4_address)` when present. -/
structure ServiceDef where
  image : String
  container_name : String
  hostname : Option String := none
  networks : Option (String × Nat) := none
  devices : Option (List String) := none
  cap_add : Option (List String) := none
  stop_grace_period : Option String := none
  deploy : Option Resources := none
  ports : Option (List String) := none
  environment : Option (List (String × String)) := none
  volumes : Option (List String) := none
  healthcheck : Option String := none
  depends_on : Option (List String) := none
  command : Option String := none
  restart : Option String := none
  privileged : Option Bool := none
  network_mode : Option String := none
deriving DecidableEq, Repr

/-- `ComposeGenerator._build_service`, as the sequence of dict updates of the
source: compute the address, attach the per-lab network, apply the
`windows-docker` platform grants, copy the passthrough keys, copy a declared
`cap_add` only for non-`windows-docker` platforms, and finally let a declared
`network_mode` replace the `networks` attachment. -/
def build_service (svc : ServiceSpec) (subnet : IPv4Network) (network_name : String) :
    Except NetworkErr ServiceDef := do
  let ip ← compute_ip subnet svc.ip_offset
  let s : ServiceDef := { image := svc.image, container_name := svc.name,
                          hostname := svc.hostname, networks := some (network_name, ip) }
  let s := if svc.platform = some "windows-docker" then
      { s with devices := some ["/dev/kvm"], cap_add := some ["NET_ADMIN"],
               stop_grace_period := some "120s" }
    else s
  let s := match svc.resources with
    | some r => { s with deploy := some r }
    | none => s
  let s := { s with ports := svc.ports, environment := svc.environment,
                    volumes := svc.volumes, healthcheck := svc.healthcheck,
                    depends_on := svc.depends_on, command := svc.command,
                    restart := svc.restart, privileged := svc.privileged }
  let s := if svc.cap_add.isSome ∧ svc.platform ≠ some "windows-docker" then
      { s with cap_add := svc.cap_add }
    else s
  let s := if svc.network_mode.isSome then
      { s with network_mode := svc.network_mode, networks := none }
    else s
  return s

/-- Assignment `d[key] = v` into a string-keyed dict kept as an ordered
association list: replace the value at an existing key, else append. -/
def dictInsert {α : Type} (key : String) (v : α) : List (String × α) → List (String × α)
  | [] => [(key, v)]
  | (k, w) :: rest => if k = key then (k, v) :: rest else (k, w) :: dictInsert key v rest

/-- The raw template document (`config` dict) as consumed by the generator,
the validator and the state store. -/
structure LabConfig where
  name : Option String := none
  description : Option String := none
  settings : List (String × String) := []
  services : List ServiceSpec := []
  volumes : List (String × String) := []
deriving DecidableEq, Repr

/-- The per-lab bridge network (`networks[network_name]` of the manifest). -/
structure NetworkDef where
  driver : String
  ipamSubnet : IPv4Network
  ipamGateway : Nat
deriving DecidableEq, Repr

/-- The generated docker-compose manifest. -/
structure Compose where
  version : String
  services : List (String × ServiceDef)
  networks : List (String × NetworkDef)
  volumes : Option (List (String × String)) := none
deriving DecidableEq, Repr

/-- `ComposeGenerator.generate`: one bridge network named from the lab id
with IPAM `{subnet, gateway}`, then one service definition per template
service in declaration order. -/
def generate (config : LabConfig) (subnet : IPv4Network) (lab_id : String) :
    Except NetworkErr Compose := do
  let network_name := "labforge-" ++ lab_id
  let services ← config.services.foldlM
    (fun acc svc => do
      let sd ← build_service svc subnet network_name
      return dictInsert svc.name sd acc) []
  return { version := "3.8", services := services,
           networks := [(network_name,
             { driver := "bridge", ipamSubnet := subnet, ipamGateway := gateway_ip subnet })],
           volumes := if config.volumes ≠ [] then some config.volumes else none }

/- ### config.py -/

/-- Errors raised by `config.py` (`ConfigError`).  The per-service required
field checks of `validate_config` are enforced by the `ServiceSpec` type of
the embedding, so only the remaining two structural checks can fail. -/
inductive ConfigErr
| missingName
| noServices
deriving DecidableEq, Repr

/-- `validate_config`: `name` must be present and `services` nonempty. -/
def validate_config (config : LabConfig) : Except ConfigErr Unit :=
  if config.name = none then .error .missingName
  else if config.services = [] then .error .noServices
  else .ok ()

/-- A character of the `\w` class of the `${(\w+)}` placeholder pattern. -/
def isWordChar (c : Char) : Bool := c.isAlphanum || c = '_'

/-- The replacement function `_sub` of `interpolate_variables`: settings
first, then the process environment, else the placeholder text verbatim. -/
def resolveKey (lookup : List (String × String)) (env : String → Option String)
    (key : String) : String :=
  match lookup.lookup key with
  | some v => v
  | none =>
    match env key with
    | some v => v
    | none => "$\x7b" ++ key ++ "\x7d"

/-- `re.sub(r"\$\{(\w+)\}", _sub, obj)` on the character list of a string:
left-to-right scan for non-overlapping `${word}` matches, replacing each and
continuing after it (replacements are not rescanned); on a failed match the
scan advances one character.  The fuel argument (instantiated with the input
length) makes the skip over a matched placeholder structurally recursive. -/
def substAux (lookup : List (String × String)) (env : String → Option String) :
    Nat → List Char → List Char
  | _, [] => []
  | 0, c :: cs => c :: cs
  | fuel + 1, c :: cs =>
    if c = '$' ∧ cs.head? = some '{' then
      let body := cs.tail
      let w := body.takeWhile isWordChar
      let r := body.dropWhile isWordChar
      if w ≠ [] ∧ r.head? = some '}' then
        (resolveKey lookup env ⟨w⟩).toList ++ substAux lookup env fuel r.tail
      else
        c :: substAux lookup env fuel cs
    else
      c :: substAux lookup env fuel cs

/-- Placeholder substitution on one string value. -/
def interpRe (lookup : List (String × String)) (env : String → Option String)
    (s : String) : String :=
  ⟨substAux lookup env s.toList.length s.toList⟩

/-- A raw YAML value of the configuration document: strings are substituted,
maps and sequences are walked recursively, everything else passes through. -/
inductive ConfigVal
| str (s : String)
| vmap (kvs : List (String × ConfigVal))
| vseq (items : List ConfigVal)
| other
deriving Repr

mutual

/-- `_replace` of `interpolate_variables`: walk every string value of the
raw configuration, including strings nested in maps and sequences. -/
def replaceVal (lookup : List (String × String)) (env : String → Option String) :
    ConfigVal → ConfigVal
  | .str s => .str (interpRe lookup env s)
  | .vmap kvs => .vmap (replaceKVs lookup env kvs)
  | .vseq items => .vseq (replaceItems lookup env items)
  | .other => .other

def replaceKVs (lookup : List (String × String)) (env : String → Option String) :
    List (String × ConfigVal) → List (String × ConfigVal)
  | [] => []
  | (k, v) :: rest => (k, replaceVal lookup env v) :: replaceKVs lookup env rest

def replaceItems (lookup : List (String × String)) (env : String → Option String) :
    List ConfigVal → List ConfigVal
  | [] => []
  | v :: rest => replaceVal lookup env v :: replaceItems lookup env rest

end

/-- `interpolate_variables(config)`: substitute every string value of the
raw document, with `lookup` the template's own `settings` map
(`config.get("settings", {})`) and `env` the process environment. -/
def interpolate_variables (lookup : List (String × String))
    (env : String → Option String) (config : ConfigVal) : ConfigVal :=
  replaceVal lookup env config

/- ### lab_state.py -/

/-- Errors raised by `lab_state.py` (`StateError`). -/
inductive StateErr
| labNotFound (lab_id : String)
| ambiguousId (pid : String) (ms : List String)
deriving DecidableEq, Repr

/-- The denormalized per-service summary stored in a lab record by
`LabState.create`. -/
structure SvcInfo where
  name : String
  image : String
  ip_offset : Nat
  platform : String
  access : Option (List String) := none
  ports : Option (List String) := none
deriving DecidableEq, Repr

/-- The `svc_info` dict `LabState.create` builds for one service:
`platform` defaults to `"linux"`, `access` and `ports` are copied when
present. -/
def svcInfoOf (svc : ServiceSpec) : SvcInfo :=
  { name := svc.name, image := svc.image, ip_offset := svc.ip_offset,
    platform := svc.platform.getD "linux", access := svc.access, ports := svc.ports }

/-- The persisted lab record (`state.yml`). -/
structure LabRecord where
  lab_id : String
  template : String
  name : String
  description : String
  status : String
  subnet : String
  services : List SvcInfo
  created_at : String
  updated_at : String
deriving DecidableEq, Repr

/-- One lab directory under the labs root: its record (`state.yml`) and
whether a generated `docker-compose.yml` exists in it. -/
structure LabEntry where
  record : LabRecord
  composeExists : Bool
deriving DecidableEq, Repr

/-- The labs root directory: lab-id-named directories, each holding a
readable record.  Wall-clock timestamps are passed in as the `now`
arguments of the operations that read the clock. -/
abbrev FS := List (String × LabEntry)

/-- `LabState.create`: make the lab directory and write the initial record
with status `building`; returns the new store and the record. -/
def create (fs : FS) (lab_id : String) (template : String) (config : LabConfig)
    (subnet : String) (now : String) : FS × LabRecord :=
  let services := config.services.map svcInfoOf
  let state : LabRecord :=
    { lab_id := lab_id, template := template,
      name := config.name.getD template, description := config.description.getD "",
      status := "building", subnet := subnet, services := services,
      created_at := now, updated_at := now }
  (dictInsert lab_id ⟨state, ((fs.lookup lab_id).map LabEntry.composeExists).getD false⟩ fs,
   state)

/-- `LabState.load`: the record at the lab id's directory, else `LabNotFound`. -/
def load (fs : FS) (lab_id : String) : Except StateErr LabRecord :=
  match fs.lookup lab_id with
  | some e => .ok e.record
  | none => .error (.labNotFound lab_id)

/-- `LabState.update_status`: read-modify-write of the status and
`updated_at` fields. -/
def update_status (fs : FS) (lab_id : String) (status : String) (now : String) :
    Except StateErr FS :=
  match fs.lookup lab_id with
  | some e =>
    .ok (dictInsert lab_id ⟨{ e.record with status := status, updated_at := now },
         e.composeExists⟩ fs)
  | none => .error (.labNotFound lab_id)

/-- `LabState.update_status` at a point where the record is known to exist
(the in-place mutation the controller performs inside its handlers). -/
def setStatus (fs : FS) (lab_id : String) (status : String) (now : String) : FS :=
  fs.map (fun kv =>
    if kv.1 = lab_id then
      (kv.1, ⟨{ kv.2.record with status := status, updated_at := now }, kv.2.composeExists⟩)
    else kv)

/-- `ComposeGenerator.write`: the lab directory gains a compose file. -/
def setCompose (fs : FS) (lab_id : String) : FS :=
  fs.map (fun kv => if kv.1 = lab_id then (kv.1, ⟨kv.2.record, true⟩) else kv)

/-- `LabState.delete`: remove the lab's directory tree. -/
def delete (fs : FS) (lab_id : String) : FS :=
  fs.filter (fun kv => kv.1 ≠ lab_id)

/-- `partial_id` prefix test (`lab_dir.name.startswith(partial_id)`) on
character lists. -/
def strStarts : List Char → List Char → Bool
  | [], _ => true
  | _ :: _, [] => false
  | p :: ps, c :: cs => p = c && strStarts ps cs

/-- `LabState.resolve_id`: prefix match of a partial id over the lab-id
directories that hold a record; zero matches fail with `LabNotFound`, more
than one with `AmbiguousId`. -/
def resolve_id (fs : FS) (pid : String) : Except StateErr String :=
  let ms := (fs.map Prod.fst).filter (fun n => strStarts pid.toList n.toList)
  match ms with
  | [] => .error (.labNotFound pid)
  | [x] => .ok x
  | _ => .error (.ambiguousId pid ms)

/-- `LabState.used_subnets`: the subnet of every record whose status is not
`destroyed`. -/
def used_subnets (fs : FS) : List String :=
  (fs.map (fun kv => kv.2.record)).filterMap
    (fun r => if r.status ≠ "destroyed" then some r.subnet else none)

/- ### controller.py -/

/-- Errors raised by `docker_manager.py` (`DockerError`). -/
inductive DockerErr
| unavailable
| cmdFailed (msg : String)
deriving DecidableEq, Repr

/-- An error surfaced by a controller operation. -/
inductive CtlErr
| state (e : StateErr)
| network (e : NetworkErr)
| docker (e : DockerErr)
deriving DecidableEq, Repr

/-- How a `destroy` invocation finished when it did not raise. -/
inductive DestroyOutcome
| alreadyDestroyed
| removed
deriving DecidableEq, Repr

/-- `LabController.destroy`: resolve the id, load the record; if the status
is `destroyed` and `force` is not set, report and return; otherwise tear
down via the runtime when a compose file exists (a runtime failure is
re-raised unless forced, in which case it is a warning), set the status to
`destroyed` and delete the directory.  `down` is the outcome of the
`docker compose down` invocation when one is made. -/
def destroy (fs : FS) (pid : String) (volumes : Bool) (force : Bool)
    (down : Except DockerErr Unit) (now : String) :
    Except CtlErr (FS × DestroyOutcome) := do
  let lab_id ← (resolve_id fs pid).mapError CtlErr.state
  match fs.lookup lab_id with
  | none => throw (.state (.labNotFound lab_id))
  | some entry =>
    if entry.record.status = "destroyed" ∧ ¬ force then
      return (fs, .alreadyDestroyed)
    else do
      let _ := volumes
      if entry.composeExists then
        match down with
        | .error e => if ¬ force then throw (.docker e) else pure ()
        | .ok _ => pure ()
      let fs1 := setStatus fs lab_id "destroyed" now
      return (delete fs1 lab_id, .removed)

/-- `LabController.build` from the point where the template has been
resolved, loaded, validated and interpolated and the lab id generated:
allocate a subnet against the used ones, create the record in `building`,
generate and write the manifest, apply it via the runtime (`upResult` is the
outcome of `docker compose up`), then mark `running`; a `DockerError` or
`NetworkError` after record creation marks the record `error` and re-raises.
The store is returned alongside the outcome because the failure paths keep
their on-disk effects. -/
def buildFrom (fs : FS) (template : String) (config : LabConfig) (lab_id : String)
    (upResult : Except DockerErr Unit) (now : String) : FS × Except CtlErr String :=
  match allocate (initUsed (used_subnets fs)) with
  | .error e => (fs, .error (.network e))
  | .ok subnet =>
    let fs1 := (create fs lab_id template config (strOfNet subnet) now).1
    match generate config subnet lab_id with
    | .error e => (setStatus fs1 lab_id "error" now, .error (.network e))
    | .ok _compose =>
      let fs2 := setCompose fs1 lab_id
      match upResult with
      | .error e => (setStatus fs2 lab_id "error" now, .error (.docker e))
      | .ok _ => (setStatus fs2 lab_id "running" now, .ok lab_id)


/- ### Concrete inputs used by counterexamples and witnesses -/

instance {ε α : Type} [DecidableEq ε] [DecidableEq α] : DecidableEq (Except ε α) := fun a b =>
  match a, b with
  | .ok x, .ok y => if h : x = y then .isTrue (by simp [h]) else .isFalse (by simp [h])
  | .error x, .error y => if h : x = y then .isTrue (by simp [h]) else .isFalse (by simp [h])
  | .ok _, .error _ => .isFalse (by simp)
  | .error _, .ok _ => .isFalse (by simp)

/-- All 255 non-reserved /24 blocks of the pool. -/
def usedAllButReserved : List IPv4Network := (List.range 255).map (fun i => blockOf (i + 1))

/-- 254 distinct non-reserved /24 blocks of the pool. -/
def used254 : List IPv4Network := (List.range 254).map (fun i => blockOf (i + 1))

/-- A service declaring an explicit `network_mode`. -/
def svcNm : ServiceSpec :=
  { name := "attacker", image := "kali", ip_offset := 10, network_mode := some "host" }

/-- A `windows-docker` service that also declares its own `cap_add`. -/
def svcWd : ServiceSpec :=
  { name := "victim", image := "win", ip_offset := 11,
    platform := some "windows-docker", cap_add := some ["SYS_ADMIN"] }

/-- A small validated template configuration. -/
def cfgW : LabConfig :=
  { name := some "malware-lab", description := some "demo",
    settings := [("password", "x1")], services := [svcNm, svcWd] }

/-- The manifest generated from `cfgW` on 172.30.1.0/24. -/
def composeW : Compose :=
  (generate cfgW (blockOf 1) "w1").toOption.getD ⟨"", [], [], none⟩

/-- The generated definition of the `network_mode`-declaring service. -/
def svcdNmDef : ServiceDef :=
  ((composeW.services).lookup "attacker").getD { image := "", container_name := "" }

/-- A lab record left on disk with status `destroyed`. -/
def recDestroyed : LabRecord :=
  { lab_id := "abc-111", template := "malware-lab", name := "malware-lab",
    description := "", status := "destroyed", subnet := "172.30.1.0/24",
    services := [], created_at := "t0", updated_at := "t0" }

/-- A lab record in status `running`. -/
def recRunning : LabRecord :=
  { lab_id := "abc-111", template := "malware-lab", name := "malware-lab",
    description := "", status := "running", subnet := "172.30.1.0/24",
    services := [], created_at := "t0", updated_at := "t0" }

/-- Two lab directories whose names share the prefix `abc`. -/
def fs9 : FS := [("abc-111", ⟨recRunning, true⟩), ("abc-222", ⟨recRunning, true⟩)]

end LabForge

namespace LabForge

theorem blockOf_inj {i j : Nat} : blockOf i = blockOf j ↔ i = j := by
  constructor
  · intro h
    have := congrArg IPv4Network.addr h
    simp [blockOf] at this
    omega
  · intro h; rw [h]

theorem find_range_first (p : Nat → Bool) :
    ∀ (n i : Nat), (List.range n).find? p = some i → p i = true ∧ ∀ j, j < i → p j = false := by
  intro n
  induction n with
  | zero => intro i h; simp at h
  | succ n ih =>
    intro i h
    rw [List.range_succ, List.find?_append] at h
    cases hfind : (List.range n).find? p with
    | some k =>
      rw [hfind] at h
      simp only [Option.or] at h
      obtain rfl := Option.some.inj h
      exact ih _ hfind
    | none =>
      rw [hfind] at h
      simp only [Option.or] at h
      have hall := List.find?_eq_none.mp hfind
      by_cases hp : p n
      · rw [List.find?_cons_of_pos _ hp] at h
        cases h
        refine ⟨hp, fun j hj => ?_⟩
        exact Bool.not_eq_true _ ▸ hall j (List.mem_range.mpr hj)
      · rw [List.find?_cons_of_neg _ hp] at h
        simp at h

end LabForge

namespace LabForge

theorem contains_eq_true_iff {l : List IPv4Network} {a : IPv4Network} :
    l.contains a = true ↔ a ∈ l := by
  simp

/-- C1 (amended): whenever at least one non-reserved /24 block is outside
`used`, `allocate` returns the first /24 subdivision of 172.30.0.0/16 in
ascending address order that is neither the reserved first block nor in
`used`. -/
theorem allocate_first_free (used : List IPv4Network)
    (h : ∃ i, 1 ≤ i ∧ i ≤ 255 ∧ blockOf i ∉ used) :
    ∃ n, allocate used = .ok n ∧ n ∈ subnets24 ∧ n ≠ blockOf 0 ∧ n ∉ used ∧
      ∀ m ∈ subnets24, m ≠ blockOf 0 → m ∉ used → n.addr ≤ m.addr := by
  obtain ⟨i, hi1, hi255, hfree⟩ := h
  set p : Nat → Bool :=
    fun j => !((blockOf j).addr == BASE_NETWORK.addr) && !(used.contains (blockOf j)) with hp
  have hpIff : ∀ j, p j = true ↔ (j ≠ 0 ∧ blockOf j ∉ used) := by
    intro j
    simp [hp, blockOf, BASE_NETWORK]
  have hq : subnets24.find? (fun sn => !(sn.addr == BASE_NETWORK.addr) && !(used.contains sn))
      = ((List.range 256).find? p).map blockOf := by
    simp only [subnets24, List.find?_map]
    rfl
  cases hfind : (List.range 256).find? p with
  | none =>
    exfalso
    have := List.find?_eq_none.mp hfind i (List.mem_range.mpr (by omega))
    exact this ((hpIff i).mpr ⟨by omega, hfree⟩)
  | some i0 =>
    obtain ⟨hpi0, hmin⟩ := find_range_first p 256 i0 hfind
    have hi0mem : i0 ∈ List.range 256 := List.mem_of_find?_eq_some hfind
    have hi0lt : i0 < 256 := List.mem_range.mp hi0mem
    obtain ⟨hi0ne, hi0free⟩ := (hpIff i0).mp hpi0
    refine ⟨blockOf i0, ?_, ?_, ?_, hi0free, ?_⟩
    · unfold allocate
      rw [hq, hfind]
      rfl
    · exact List.mem_map_of_mem blockOf hi0mem
    · intro hcon
      exact hi0ne (blockOf_inj.mp hcon)
    · intro m hm hm0 hmu
      obtain ⟨j, hjmem, rfl⟩ := List.mem_map.mp hm
      have hj0 : j ≠ 0 := fun hj0 => hm0 (by rw [hj0])
      have hpj : p j = true := (hpIff j).mpr ⟨hj0, hmu⟩
      have : ¬ j < i0 := fun hlt => by
        have := hmin j hlt
        rw [hpj] at this
        exact Bool.true_eq_false.mp this
      simp only [blockOf]
      omega

end LabForge

namespace LabForge

theorem allocate_error_of_all_used (used : List IPv4Network)
    (h : ∀ i < 256, 1 ≤ i → blockOf i ∈ used) :
    allocate used = .error .noSubnetAvailable := by
  unfold allocate
  have hnone : subnets24.find?
      (fun sn => !(sn.addr == BASE_NETWORK.addr) && !(used.contains sn)) = none := by
    rw [List.find?_eq_none]
    intro sn hsn
    obtain ⟨j, hj, rfl⟩ := List.mem_map.mp hsn
    by_cases hj0 : j = 0
    · subst hj0
      simp [blockOf]
    · have hmem : blockOf j ∈ used := h j (List.mem_range.mp hj) (by omega)
      have hc : used.contains (blockOf j) = true := contains_eq_true_iff.mpr hmem
      simp [hc, hmem]
  rw [hnone]

theorem mem_usedAllButReserved {i : Nat} (h1 : 1 ≤ i) (h2 : i < 256) :
    blockOf i ∈ usedAllButReserved := by
  unfold usedAllButReserved
  refine List.mem_map.mpr ⟨i - 1, List.mem_range.mpr (by omega), ?_⟩
  congr 1
  omega

/-- C1 counterexample: the used set of all 255 non-reserved /24 blocks does
not cover the whole 172.30.0.0/16 pool (the address 172.30.0.0 is covered by
none of its members), yet `allocate` returns no block at all: it fails with
`NoSubnetAvailable`. -/
theorem allocate_nonfull_pool_cex :
    (∀ n ∈ usedAllButReserved, n ∈ subnets24) ∧
    (∀ n ∈ usedAllButReserved, memNet BASE_NETWORK.addr n = false) ∧
    allocate usedAllButReserved = .error .noSubnetAvailable := by
  refine ⟨?_, ?_, allocate_error_of_all_used _ (fun i hi h1 => mem_usedAllButReserved h1 hi)⟩
  · intro n hn
    obtain ⟨i, hi, rfl⟩ := List.mem_map.mp hn
    exact List.mem_map_of_mem blockOf (List.mem_range.mpr (by have := List.mem_range.mp hi; omega))
  · intro n hn
    obtain ⟨i, hi, rfl⟩ := List.mem_map.mp hn
    simp [memNet, blockOf, BASE_NETWORK]

end LabForge

namespace LabForge

set_option maxRecDepth 10000 in
/-- C2 counterexample: 254 distinct allocatable (non-reserved) /24 blocks of
the pool all placed in the used set do not exhaust the allocator: `allocate`
still succeeds, returning 172.30.255.0/24 — so the pool does not hold
exactly 254 allocatable blocks. -/
theorem allocate_254_cex :
    used254.length = 254 ∧ used254.Nodup ∧
    (∀ n ∈ used254, n ∈ subnets24 ∧ n ≠ blockOf 0) ∧
    allocate used254 = .ok (blockOf 255) ∧ blockOf 255 ∉ used254 := by
  refine ⟨by simp [used254], ?_, ?_, by decide, by decide⟩
  · exact List.Nodup.map
      (fun a b h => by have := blockOf_inj.mp h; omega) (List.nodup_range 254)
  · intro n hn
    obtain ⟨i, hi, rfl⟩ := List.mem_map.mp hn
    constructor
    · exact List.mem_map_of_mem blockOf (List.mem_range.mpr (by have := List.mem_range.mp hi; omega))
    · intro h
      have := blockOf_inj.mp h
      omega

set_option maxRecDepth 10000 in
/-- C2 (amended): the pool holds exactly 255 allocatable /24 blocks after
reserving the first one, and whenever all 255 of them are in the used set,
`allocate` fails with `NoSubnetAvailable`. -/
theorem allocate_exhausted :
    (subnets24.filter (fun n => !(n.addr == BASE_NETWORK.addr))).length = 255 ∧
    ∀ used : List IPv4Network, (∀ i < 256, 1 ≤ i → blockOf i ∈ used) →
      allocate used = .error .noSubnetAvailable := by
  exact ⟨by decide, allocate_error_of_all_used⟩

/-- C2 witness instance: all 255 allocatable blocks used, allocation fails. -/
theorem allocate_exhausted_witness :
    allocate usedAllButReserved = .error .noSubnetAvailable :=
  allocate_exhausted.2 usedAllButReserved (fun i hi h1 => mem_usedAllButReserved h1 hi)

/-- C3: on a /24 subnet, `compute_ip` returns network address plus offset,
an address inside the subnet, for every offset up to 254; it fails with the
offset-out-of-range error at offset 256; and every accepted offset yields an
address inside the subnet. -/
theorem compute_ip_spec (net : IPv4Network) (h24 : net.prefixLen = 24) :
    (∀ off : Nat, off ≤ 254 →
      compute_ip net off = .ok (net.addr + off) ∧ memNet (net.addr + off) net = true) ∧
    compute_ip net 256 = .error (.offsetOutOfRange 256 net) ∧
    (∀ off ip : Nat, compute_ip net off = .ok ip → memNet ip net = true) := by
  obtain ⟨a, pl⟩ := net
  simp only at h24
  subst h24
  have hmem : ∀ ip : Nat, memNet ip ⟨a, 24⟩ = (a ≤ ip && ip ≤ a + 255) := by
    intro ip
    simp only [memNet]
    norm_num
  refine ⟨?_, ?_, ?_⟩
  · intro off hoff
    have h1 : memNet (a + off) ⟨a, 24⟩ = true := by
      rw [hmem]
      simp
      omega
    exact ⟨by simp [compute_ip, h1], h1⟩
  · have h2 : memNet (a + 256) ⟨a, 24⟩ = false := by
      rw [hmem]
      simp
    simp [compute_ip, h2]
  · intro off ip hok
    unfold compute_ip at hok
    by_cases hm : memNet (a + off) ⟨a, 24⟩ = true
    · rw [if_pos hm] at hok
      obtain rfl := Except.ok.inj hok
      exact hm
    · rw [if_neg hm] at hok
      cases hok

/-- C3 witness instance: on the /24 subnet 172.30.1.0/24, offset 10 is
accepted (address inside the subnet) and offset 256 is rejected. -/
theorem compute_ip_spec_witness :
    compute_ip (blockOf 1) 10 = .ok ((blockOf 1).addr + 10) ∧
    compute_ip (blockOf 1) 256 = .error (.offsetOutOfRange 256 (blockOf 1)) :=
  ⟨((compute_ip_spec (blockOf 1) rfl).1 10 (by decide)).1,
   (compute_ip_spec (blockOf 1) rfl).2.1⟩

/-- C10: the allocator constructor silently discards entries that do not
parse as CIDRs; a lab record occupying 172.30.1.0/24 whose subnet field is
corrupted to "172.30.1.0/24x" contributes nothing to the used set, and
`allocate` then returns exactly the block that record occupies. -/
theorem initUsed_discards :
    (∀ s l, parseCIDR s = none → initUsed (s :: l) = initUsed l) ∧
    parseCIDR "172.30.1.0/24" = some (blockOf 1) ∧
    initUsed ["172.30.1.0/24x"] = [] ∧
    allocate (initUsed ["172.30.1.0/24x"]) = .ok (blockOf 1) := by
  refine ⟨?_, by decide, by decide, by decide⟩
  intro s l hs
  simp [initUsed, hs]

/-- C10 witness instance: a corrupt entry is dropped while a valid one is
kept. -/
theorem initUsed_discards_witness :
    initUsed ["172.30.1.0/24x", "172.30.2.0/24"] = initUsed ["172.30.2.0/24"] :=
  initUsed_discards.1 "172.30.1.0/24x" ["172.30.2.0/24"] (by decide)

/-- C1 witness instance: with only 172.30.1.0/24 used, allocation succeeds
with the first free non-reserved block. -/
theorem allocate_first_free_witness :
    ∃ n, allocate [blockOf 1] = .ok n ∧ n ∈ subnets24 ∧ n ≠ blockOf 0 ∧
      n ∉ [blockOf 1] ∧
      ∀ m ∈ subnets24, m ≠ blockOf 0 → m ∉ [blockOf 1] → n.addr ≤ m.addr :=
  allocate_first_free [blockOf 1] ⟨2, by decide, by decide, by decide⟩

end LabForge

namespace LabForge

theorem lookup_dictInsert_self {α : Type} (key : String) (v : α) :
    ∀ l : List (String × α), (dictInsert key v l).lookup key = some v := by
  intro l
  induction l with
  | nil => simp [dictInsert, List.lookup]
  | cons kv rest ih =>
    obtain ⟨k, w⟩ := kv
    by_cases h : k = key
    · subst h
      simp [dictInsert, List.lookup]
    · simp only [dictInsert, h, if_false, List.lookup]
      have hbk : (key == k) = false := by simp [Ne.symm h]
      simp [hbk, ih]

theorem mem_dictInsert {α : Type} {x : String × α} {key : String} {v : α} :
    ∀ {l : List (String × α)}, x ∈ dictInsert key v l → x = (key, v) ∨ x ∈ l := by
  intro l
  induction l with
  | nil => intro h; simp [dictInsert] at h; exact Or.inl h
  | cons kv rest ih =>
    obtain ⟨k, w⟩ := kv
    intro h
    by_cases hk : k = key
    · subst hk
      simp only [dictInsert, if_pos rfl] at h
      rcases List.mem_cons.mp h with h | h
      · exact Or.inl (by simpa using h)
      · exact Or.inr (List.mem_cons_of_mem _ h)
    · simp only [dictInsert, if_neg hk] at h
      rcases List.mem_cons.mp h with h | h
      · exact Or.inr (by simp [h])
      · rcases ih h with h | h
        · exact Or.inl h
        · exact Or.inr (List.mem_cons_of_mem _ h)

theorem build_service_props (svc : ServiceSpec) (subnet : IPv4Network) (nn : String)
    (d : ServiceDef) (h : build_service svc subnet nn = .ok d) :
    (svc.network_mode.isSome → d.network_mode = svc.network_mode ∧ d.networks = none) ∧
    (svc.platform = some "windows-docker" → d.cap_add = some ["NET_ADMIN"]) := by
  unfold build_service at h
  cases hip : compute_ip subnet svc.ip_offset with
  | error e =>
    rw [hip] at h
    simp [Bind.bind, Except.bind] at h
  | ok ip =>
    rw [hip] at h
    simp only [Bind.bind, Except.bind, Pure.pure, Except.pure, Except.ok.injEq] at h
    subst h
    cases hres : svc.resources <;>
      by_cases h1 : svc.platform = some "windows-docker" <;>
        by_cases h2 : svc.cap_add.isSome ∧ svc.platform ≠ some "windows-docker" <;>
          by_cases h3 : svc.network_mode.isSome <;>
            simp [hres, h1, h2, h3]

end LabForge

namespace LabForge

theorem foldlM_build_mem (subnet : IPv4Network) (nn : String) :
    ∀ (svcs : List ServiceSpec) (acc out : List (String × ServiceDef)),
      svcs.foldlM (fun acc svc => do
        let sd ← build_service svc subnet nn
        return dictInsert svc.name sd acc) acc = .ok out →
      ∀ x ∈ out, x ∈ acc ∨
        ∃ svc ∈ svcs, x.1 = svc.name ∧ build_service svc subnet nn = .ok x.2 := by
  intro svcs
  induction svcs with
  | nil =>
    intro acc out h x hx
    simp only [List.foldlM_nil, Pure.pure, Except.pure, Except.ok.injEq] at h
    subst h
    exact Or.inl hx
  | cons svc rest ih =>
    intro acc out h x hx
    simp only [List.foldlM_cons] at h
    cases hb : build_service svc subnet nn with
    | error e =>
      rw [hb] at h
      simp [Bind.bind, Except.bind] at h
    | ok sd =>
      rw [hb] at h
      simp only [Bind.bind, Except.bind, Pure.pure, Except.pure] at h
      rcases ih (dictInsert svc.name sd acc) out h x hx with hacc | ⟨s, hs, hn, hbs⟩
      · rcases mem_dictInsert hacc with heq | hmem
        · right
          exact ⟨svc, List.mem_cons_self _ _, by rw [heq], by rw [heq]; exact hb⟩
        · exact Or.inl hmem
      · right
        exact ⟨s, List.mem_cons_of_mem _ hs, hn, hbs⟩

/-- C4: in a generated manifest, every service definition originates from a
declared service of the template; when that service declares
`network_mode`, the definition carries it and has no per-lab network
attachment; and when its platform is `windows-docker`, its `cap_add` is
exactly the injected `NET_ADMIN` (a declared `cap_add` is suppressed). -/
theorem generate_netmode_capadd (config : LabConfig) (subnet : IPv4Network)
    (lab_id : String) (c : Compose) (hok : generate config subnet lab_id = .ok c) :
    ∀ x ∈ c.services, ∃ svc ∈ config.services, x.1 = svc.name ∧
      (svc.network_mode.isSome → x.2.network_mode = svc.network_mode ∧ x.2.networks = none) ∧
      (svc.platform = some "windows-docker" → x.2.cap_add = some ["NET_ADMIN"]) := by
  intro x hx
  simp only [generate] at hok
  cases hf : config.services.foldlM (fun acc svc => do
      let sd ← build_service svc subnet ("labforge-" ++ lab_id)
      return dictInsert svc.name sd acc) [] with
  | error e =>
    rw [hf] at hok
    simp [Bind.bind, Except.bind] at hok
  | ok services =>
    rw [hf] at hok
    simp only [Bind.bind, Except.bind, Pure.pure, Except.pure, Except.ok.injEq] at hok
    subst hok
    simp only at hx
    rcases foldlM_build_mem subnet ("labforge-" ++ lab_id) config.services [] services hf x hx
      with hacc | ⟨svc, hs, hn, hbs⟩
    · cases hacc
    · exact ⟨svc, hs, hn, (build_service_props svc subnet _ x.2 hbs).1,
        (build_service_props svc subnet _ x.2 hbs).2⟩

end LabForge

namespace LabForge

/-- C4 witness instance: the generated definition of the
`network_mode`-declaring service of `cfgW` satisfies the theorem's
conclusion. -/
theorem generate_netmode_capadd_witness :
    ∃ svc ∈ cfgW.services, ("attacker", svcdNmDef).1 = svc.name ∧
      (svc.network_mode.isSome →
        ("attacker", svcdNmDef).2.network_mode = svc.network_mode ∧
        ("attacker", svcdNmDef).2.networks = none) ∧
      (svc.platform = some "windows-docker" →
        ("attacker", svcdNmDef).2.cap_add = some ["NET_ADMIN"]) :=
  generate_netmode_capadd cfgW (blockOf 1) "w1" composeW rfl ("attacker", svcdNmDef)
    (by decide)

end LabForge

namespace LabForge

/-- C5: immediately after `create`, `load` of the same lab id succeeds and
yields a record whose `subnet`, `template` and service list match the
inputs exactly (the stored services are the denormalized summaries of the
template's services, in order, preserving name, image and ip_offset). -/
theorem create_load_roundtrip (fs : FS) (lab_id template : String) (config : LabConfig)
    (subnet now : String) (hval : validate_config config = .ok ()) :
    ∃ r, load (create fs lab_id template config subnet now).1 lab_id = .ok r ∧
      r.subnet = subnet ∧ r.template = template ∧
      r.services = config.services.map svcInfoOf ∧
      r.services.map SvcInfo.name = config.services.map ServiceSpec.name ∧
      r.services.map SvcInfo.image = config.services.map ServiceSpec.image ∧
      r.services.map SvcInfo.ip_offset = config.services.map ServiceSpec.ip_offset := by
  have hload : load (create fs lab_id template config subnet now).1 lab_id = .ok
      { lab_id := lab_id, template := template, name := config.name.getD template,
        description := config.description.getD "", status := "building", subnet := subnet,
        services := config.services.map svcInfoOf, created_at := now, updated_at := now } := by
    unfold load create
    rw [lookup_dictInsert_self]
  refine ⟨_, hload, rfl, rfl, rfl, ?_, ?_, ?_⟩ <;>
    simp [List.map_map, svcInfoOf, Function.comp]

/-- C5 witness instance: round-trip on a concrete validated template. -/
theorem create_load_roundtrip_witness :
    ∃ r, load (create [] "mal-a1b2c3d4" "malware-lab" cfgW "172.30.1.0/24" "t0").1
        "mal-a1b2c3d4" = .ok r ∧
      r.subnet = "172.30.1.0/24" ∧ r.template = "malware-lab" ∧
      r.services = cfgW.services.map svcInfoOf ∧
      r.services.map SvcInfo.name = cfgW.services.map ServiceSpec.name ∧
      r.services.map SvcInfo.image = cfgW.services.map ServiceSpec.image ∧
      r.services.map SvcInfo.ip_offset = cfgW.services.map ServiceSpec.ip_offset :=
  create_load_roundtrip [] "mal-a1b2c3d4" "malware-lab" cfgW "172.30.1.0/24" "t0" (by decide)

theorem lookup_delete (fs : FS) (lab_id : String) : (delete fs lab_id).lookup lab_id = none := by
  simp only [delete]
  simp
  exact fun a b _ h1 h2 => h1 h2.symm

theorem lookup_setStatus (fs : FS) (lab_id status now : String) :
    (setStatus fs lab_id status now).lookup lab_id =
      (fs.lookup lab_id).map
        (fun e => ⟨{ e.record with status := status, updated_at := now }, e.composeExists⟩) := by
  induction fs with
  | nil => rfl
  | cons kv rest ih =>
    obtain ⟨k, e⟩ := kv
    simp only [setStatus, List.map_cons] at ih ⊢
    by_cases h : k = lab_id
    · rw [if_pos (show (k, e).1 = lab_id from h)]
      subst h
      simp [List.lookup]
    · rw [if_neg (show ¬ (k, e).1 = lab_id from h)]
      have hbk : (lab_id == k) = false := by simp [Ne.symm h]
      simp [List.lookup, hbk, ih]

theorem lookup_setCompose (fs : FS) (lab_id : String) :
    (setCompose fs lab_id).lookup lab_id =
      (fs.lookup lab_id).map (fun e => ⟨e.record, true⟩) := by
  induction fs with
  | nil => rfl
  | cons kv rest ih =>
    obtain ⟨k, e⟩ := kv
    simp only [setCompose, List.map_cons] at ih ⊢
    by_cases h : k = lab_id
    · rw [if_pos (show (k, e).1 = lab_id from h)]
      subst h
      simp [List.lookup]
    · rw [if_neg (show ¬ (k, e).1 = lab_id from h)]
      have hbk : (lab_id == k) = false := by simp [Ne.symm h]
      simp [List.lookup, hbk, ih]

end LabForge

namespace LabForge

/-- C6 counterexample: `destroy` of a nonexistent lab raises `LabNotFound`
(from `resolve_id`), with and without `--force`, instead of being a
no-op. -/
theorem destroy_nonexistent_cex :
    destroy ([] : FS) "abc" false false (.ok ()) "t0" =
      .error (.state (.labNotFound "abc")) ∧
    destroy ([] : FS) "abc" false true (.ok ()) "t0" =
      .error (.state (.labNotFound "abc")) := by
  exact ⟨rfl, rfl⟩

/-- C6 (amended): `destroy` of a lab whose record still exists with status
`destroyed` is, without `--force`, a no-op that reports the fact and does
not raise; with `--force` it proceeds and removes the lab directory.  For a
nonexistent lab, `destroy` fails with the `resolve_id` error (`LabNotFound`)
whether or not `--force` is given. -/
theorem destroy_spec (fs : FS) (pid lab_id : String) (entry : LabEntry) (vols : Bool)
    (down : Except DockerErr Unit) (now : String)
    (hres : resolve_id fs pid = .ok lab_id) (hlook : fs.lookup lab_id = some entry)
    (hstatus : entry.record.status = "destroyed") :
    destroy fs pid vols false down now = .ok (fs, .alreadyDestroyed) ∧
    (∃ fs', destroy fs pid vols true down now = .ok (fs', .removed) ∧
      fs'.lookup lab_id = none) ∧
    (∀ (pid' : String) (e : StateErr) (force : Bool),
      resolve_id fs pid' = .error e →
      destroy fs pid' vols force down now = .error (.state e)) := by
  refine ⟨?_, ?_, ?_⟩
  · simp [destroy, hres, Except.mapError, Bind.bind, Except.bind, Pure.pure, Except.pure,
      hlook, hstatus]
  · refine ⟨delete (setStatus fs lab_id "destroyed" now) lab_id, ?_, lookup_delete _ _⟩
    simp only [destroy, hres, Except.mapError, Bind.bind, Except.bind, hlook, hstatus]
    cases hce : entry.composeExists <;> cases down <;>
      simp [hstatus, Pure.pure, Except.pure]
  · intro pid' e force hres'
    simp [destroy, hres', Except.mapError, Bind.bind, Except.bind]

/-- C6 witness instance: destroying the already-destroyed lab `abc-111`
without force is a reported no-op. -/
theorem destroy_spec_witness :
    destroy [("abc-111", ⟨recDestroyed, false⟩)] "abc-111" false false (.ok ()) "t1" =
      .ok ([("abc-111", ⟨recDestroyed, false⟩)], .alreadyDestroyed) :=
  (destroy_spec [("abc-111", ⟨recDestroyed, false⟩)] "abc-111" "abc-111"
    ⟨recDestroyed, false⟩ false (.ok ()) "t1" (by decide) (by decide) (by decide)).1

/-- C7: when the manifest application fails — the runtime invocation fails
after a manifest was generated, or manifest generation itself fails with a
network error — the lab record created by `build` is kept on disk with its
status set to `error`, and the failure is re-raised to the caller. -/
theorem build_error_retained (fs : FS) (template : String) (config : LabConfig)
    (lab_id : String) (subnet : IPv4Network) (now : String)
    (halloc : allocate (initUsed (used_subnets fs)) = .ok subnet) :
    (∀ (eD : DockerErr) (c : Compose), generate config subnet lab_id = .ok c →
      ∃ entry, (buildFrom fs template config lab_id (.error eD) now).1.lookup lab_id =
          some entry ∧
        entry.record.status = "error" ∧
        (buildFrom fs template config lab_id (.error eD) now).2 = .error (.docker eD)) ∧
    (∀ eN : NetworkErr, generate config subnet lab_id = .error eN →
      ∀ up : Except DockerErr Unit,
      ∃ entry, (buildFrom fs template config lab_id up now).1.lookup lab_id = some entry ∧
        entry.record.status = "error" ∧
        (buildFrom fs template config lab_id up now).2 = .error (.network eN)) := by
  constructor
  · intro eD c hgen
    simp only [buildFrom, halloc, hgen]
    rw [lookup_setStatus, lookup_setCompose]
    unfold create
    rw [lookup_dictInsert_self]
    exact ⟨_, rfl, rfl, trivial⟩
  · intro eN hgen up
    simp only [buildFrom, halloc, hgen]
    rw [lookup_setStatus]
    unfold create
    rw [lookup_dictInsert_self]
    exact ⟨_, rfl, rfl, trivial⟩

/-- C7 witness instance: a failing `docker compose up` leaves the concrete
lab record in status `error` and re-raises the runtime error. -/
theorem build_error_retained_witness :
    ∃ entry, (buildFrom [] "malware-lab" cfgW "w1" (.error (.cmdFailed "boom")) "t0").1.lookup
        "w1" = some entry ∧
      entry.record.status = "error" ∧
      (buildFrom [] "malware-lab" cfgW "w1" (.error (.cmdFailed "boom")) "t0").2 =
        .error (.docker (.cmdFailed "boom")) :=
  (build_error_retained [] "malware-lab" cfgW "w1" (blockOf 1) "t0" (by decide)).1
    (.cmdFailed "boom") composeW rfl

end LabForge

namespace LabForge

theorem takeWhile_word (k : List Char) (hk : k.all isWordChar = true) (rest : List Char) :
    (k ++ '}' :: rest).takeWhile isWordChar = k ∧
    (k ++ '}' :: rest).dropWhile isWordChar = '}' :: rest := by
  induction k with
  | nil =>
    have h : isWordChar '}' = false := by decide
    simp [List.takeWhile_cons, List.dropWhile_cons, h]
  | cons c cs ih =>
    simp only [List.all_cons, Bool.and_eq_true] at hk
    simp [List.takeWhile_cons, List.dropWhile_cons, hk.1, ih hk.2]

/-- C8: placeholder interpolation resolves each `${identifier}` from the
settings map first, then the environment, and leaves it verbatim when
neither resolves; the walk recurses through nested maps and sequences; and
the `${password}` scenario behaves as specified. -/
theorem interpolate_spec :
    (∀ (k : String) (lookup : List (String × String)) (env : String → Option String),
      k.toList ≠ [] → k.toList.all isWordChar = true →
      interpRe lookup env ("$\x7b" ++ k ++ "\x7d") =
        (match lookup.lookup k with
         | some v => v
         | none =>
           match env k with
           | some v => v
           | none => "$\x7b" ++ k ++ "\x7d")) ∧
    (∀ (lookup : List (String × String)) (env : String → Option String) (key s : String),
      interpolate_variables lookup env (.vmap [(key, .vseq [.str s])]) =
        .vmap [(key, .vseq [.str (interpRe lookup env s)])]) ∧
    interpRe [("password", "x1")] (fun _ => none) "$\x7bpassword\x7d" = "x1" ∧
    (∀ env : String → Option String, env "password" = none →
      interpRe [] env "$\x7bpassword\x7d" = "$\x7bpassword\x7d") := by
  have hp1 : ∀ (k : String) (lookup : List (String × String)) (env : String → Option String),
      k.toList ≠ [] → k.toList.all isWordChar = true →
      interpRe lookup env ("$\x7b" ++ k ++ "\x7d") = resolveKey lookup env k := by
    intro k lookup env hne hword
    unfold interpRe
    have hlist : ("$\x7b" ++ k ++ "\x7d").toList = '$' :: '{' :: (k.toList ++ ['}']) := by
      show ("$\x7b" ++ k ++ "\x7d").data = _
      simp [String.data_append]
    rw [hlist]
    have hlen : ('$' :: '{' :: (k.toList ++ ['}'])).length = (k.toList.length + 2) + 1 := by
      simp
    rw [hlen]
    have hstep : substAux lookup env (k.toList.length + 2 + 1)
        ('$' :: '{' :: (k.toList ++ ['}'])) = (resolveKey lookup env k).toList := by
      obtain ⟨htake, hdrop⟩ := takeWhile_word k.toList hword []
      simp only [substAux, List.head?_cons, List.tail_cons]
      rw [htake, hdrop]
      simp [hne, substAux]
      exact fun h => absurd h hne
    rw [hstep]
    rfl
  refine ⟨fun k lookup env hne hw => hp1 k lookup env hne hw, ?_, ?_, ?_⟩
  · intro lookup env key s
    simp [interpolate_variables, replaceVal, replaceKVs, replaceItems]
  · have := hp1 "password" [("password", "x1")] (fun _ => none) (by decide) (by decide)
    simpa [resolveKey, List.lookup] using this
  · intro env henv
    have := hp1 "password" [] env (by decide) (by decide)
    simpa [resolveKey, List.lookup, henv] using this

/-- C8 witness instance: a placeholder with a matching setting resolves to
the setting's value. -/
theorem interpolate_spec_witness :
    interpRe [("user", "bob")] (fun _ => none) "$\x7buser\x7d" = "bob" := by
  have := interpolate_spec.1 "user" [("user", "bob")] (fun _ => none) (by decide) (by decide)
  simpa [List.lookup] using this

/-- C9: `resolve_id` prefix-matches over the existing lab-id directories:
zero matches fail with `LabNotFound`, more than one with `AmbiguousId`, and
exactly one succeeds with the full id; with labs `abc-111` and `abc-222`,
partial `abc` is ambiguous and `abc-1` resolves to `abc-111`. -/
theorem resolve_id_spec :
    (∀ (fs : FS) (pid : String),
      ((fs.map Prod.fst).filter (fun n => strStarts pid.toList n.toList) = [] →
        resolve_id fs pid = .error (.labNotFound pid)) ∧
      (∀ x, (fs.map Prod.fst).filter (fun n => strStarts pid.toList n.toList) = [x] →
        resolve_id fs pid = .ok x) ∧
      (∀ a b t, (fs.map Prod.fst).filter (fun n => strStarts pid.toList n.toList) =
          a :: b :: t →
        resolve_id fs pid = .error (.ambiguousId pid (a :: b :: t)))) ∧
    resolve_id fs9 "abc" = .error (.ambiguousId "abc" ["abc-111", "abc-222"]) ∧
    resolve_id fs9 "abc-1" = .ok "abc-111" := by
  refine ⟨?_, by decide, by decide⟩
  intro fs pid
  refine ⟨?_, ?_, ?_⟩
  · intro h
    simp only [resolve_id]
    rw [h]
  · intro x h
    simp only [resolve_id]
    rw [h]
  · intro a b t h
    simp only [resolve_id]
    rw [h]

/-- C9 witness instance: a unique prefix match resolves to the full id. -/
theorem resolve_id_spec_witness :
    resolve_id [("abc-111", ⟨recRunning, true⟩)] "abc-1" = .ok "abc-111" :=
  (resolve_id_spec.1 [("abc-111", ⟨recRunning, true⟩)] "abc-1").2.1 "abc-111" (by decide)

end LabForge
